import Mathlib

/-!
Shallow embedding of the server-action handlers of this repository:
`src/app/lib/actions.ts` (signup, createInvoice, updateInvoice,
deleteInvoice, authenticate) and `src/app/lib/actions/signup.ts`
(a second signup variant, embedded here with a `B` suffix).

Modelling conventions:
  * `FormData` is a list of key/value pairs; `FormData.get` returns the
    first value bound to a key, `none` standing for JavaScript `null`.
  * The database is a pair of lists (`users`, `invoices`); every SQL
    statement a handler runs is also recorded in an `Effect` trace,
    together with the cache revalidation calls.
  * Numbers coerced by `z.coerce.number()` are modelled as exact
    rationals (`ℚ`) produced by a model of JavaScript `Number()`
    restricted to decimal literals.
  * Database exceptions are modelled by a `failAt : Option Nat`
    parameter: the n-th SQL statement of a call throws exactly when
    `failAt = some n`, which transfers control to the handler's
    `catch` branch.
  * `redirect(path)` is modelled as a terminal `ActionResult.redirect`
    outcome, following the specification's description of the
    navigation behaviour.
-/

/-- A form submission: ephemeral key/value input.  `FormData.get` on a
missing key returns `none` (JavaScript `null`). -/
structure FormData where
  pairs : List (String × String)
deriving Repr, DecidableEq

def FormData.get (fd : FormData) (k : String) : Option String :=
  (fd.pairs.find? (fun p => p.1 == k)).map (fun p => p.2)

/-- A `users` row: `name` is `none` for rows inserted by the variant
that omits the name column. -/
structure UserRow where
  name : Option String
  email : String
  password : String
deriving Repr, DecidableEq

/-- An `invoices` row as written by `createInvoice`. -/
structure InvoiceRow where
  customer_id : String
  amount : ℚ
  status : String
  date : String
deriving Repr, DecidableEq

/-- The relational store touched by the handlers. -/
structure DB where
  users : List UserRow
  invoices : List InvoiceRow
deriving Repr, DecidableEq

/-- The side effects a handler can perform: each SQL statement and each
cache revalidation, in order.  `sqlUpdateInvoice` records the table
name the source targets (`invoice`, misnamed). -/
inductive Effect where
  | sqlSelectUserByName (name : String)
  | sqlSelectUserByEmail (email : String)
  | sqlInsertUser (row : UserRow)
  | sqlInsertInvoice (row : InvoiceRow)
  | sqlUpdateInvoice (table : String) (id : String) (customerId : String) (amount : ℚ) (status : String)
  | sqlDeleteInvoice (id : String)
  | revalidate (path : String)
deriving Repr, DecidableEq

/-- The value a handler produces: a field-error object together with a
message, a message-only object, or a navigation redirect. -/
inductive ActionResult (E : Type) where
  | errors (e : E) (message : String)
  | message (m : String)
  | redirect (path : String)
deriving Repr, DecidableEq

/-! ## zod validation model -/

/-- Characters the zod email regex allows in the local part. -/
def isLocalChar (c : Char) : Bool :=
  c.isAlpha || c.isDigit || c == '_' || c.toNat == 39 || c == '+' || c == '-' || c == '.'

/-- Characters the zod email regex allows as the last local-part
character (no dot). -/
def isLocalLastChar (c : Char) : Bool :=
  c.isAlpha || c.isDigit || c == '_' || c == '+' || c == '-'

/-- No two consecutive dots anywhere in the string. -/
def noDoubleDot : List Char → Bool
  | [] => true
  | [_] => true
  | c1 :: c2 :: rest => !(c1 == '.' && c2 == '.') && noDoubleDot (c2 :: rest)

/-- Split a character list on a separator (the list of chunks between
occurrences of `sep`, like `String.splitOn` on a single-character
separator). -/
def splitOnChar (sep : Char) (cs : List Char) : List (List Char) :=
  cs.foldr
    (fun c acc =>
      match acc with
      | [] => [[c]]
      | g :: gs => if c == sep then [] :: g :: gs else (c :: g) :: gs)
    [[]]

/-- A domain label: `[A-Z0-9][A-Z0-9-]*`, case-insensitive. -/
def validLabel : List Char → Bool
  | [] => false
  | c :: rest => (c.isAlpha || c.isDigit) && rest.all (fun d => d.isAlpha || d.isDigit || d == '-')

/-- A top-level domain: at least two letters. -/
def validTld (l : List Char) : Bool :=
  decide (2 ≤ l.length) && l.all Char.isAlpha

/-- The domain part: one or more labels followed by a TLD. -/
def validDomain (d : List Char) : Bool :=
  match (splitOnChar '.' d).reverse with
  | [] => false
  | tld :: labels => !labels.isEmpty && validTld tld && labels.all validLabel

/-- zod's `z.string().email()` check (the v3 email regular
expression): local part of allowed characters, not starting with a
dot and not ending in a dot, no consecutive dots, one `@`, and a
label+TLD domain. -/
def emailValid (s : String) : Bool :=
  match splitOnChar '@' s.toList with
  | [l, domain] =>
      (match l with
       | [] => false
       | c :: _ => !(c == '.')) &&
      noDoubleDot s.toList &&
      l.all isLocalChar &&
      (match l.reverse with
       | [] => false
       | last :: _ => isLocalLastChar last) &&
      validDomain domain
  | _ => false

/-- Fold a digit list into a natural number. -/
def digitsToNat (ds : List Char) : Nat :=
  ds.foldl (fun n c => n * 10 + (c.toNat - 48)) 0

/-- Parse an unsigned decimal literal `digits [. digits]` into an exact
rational (the digits over the power of ten of the fraction length);
`none` models NaN. -/
def parseDecimal (s : List Char) : Option ℚ :=
  let intPart := s.takeWhile Char.isDigit
  let rest := s.dropWhile Char.isDigit
  match rest with
  | [] => if intPart.isEmpty then none else some (digitsToNat intPart : ℚ)
  | '.' :: frac =>
      if frac.all Char.isDigit && !(intPart.isEmpty && frac.isEmpty) then
        some (mkRat (digitsToNat (intPart ++ frac)) (10 ^ frac.length))
      else none
  | _ => none

/-- Strip leading and trailing whitespace. -/
def trimWs (cs : List Char) : List Char :=
  ((cs.dropWhile Char.isWhitespace).reverse.dropWhile Char.isWhitespace).reverse

/-- JavaScript `Number()` as applied by `z.coerce.number()`, modelled
on decimal literals: `null` and the empty (or all-whitespace) string
coerce to `0`; otherwise an optional sign followed by a decimal
literal; anything else is NaN (`none`). -/
def jsNumber : Option String → Option ℚ
  | none => some 0
  | some s =>
      match trimWs s.toList with
      | [] => some 0
      | '-' :: rest => (parseDecimal rest).map (fun q => -q)
      | '+' :: rest => parseDecimal rest
      | cs => parseDecimal cs

/-! ### Signup schema (`actions.ts`): name min 1, email, password min 6 -/

/-- Field-error map of the `actions.ts` `SignupSchema`; an empty list
models an absent key in `flatten().fieldErrors`. -/
structure SignupFieldErrors where
  name : List String
  email : List String
  password : List String
deriving Repr, DecidableEq

/-- Parsed signup data. -/
structure SignupData where
  name : String
  email : String
  password : String
deriving Repr, DecidableEq

/-- `z.string().min(1, 'Name is required')` on a form value. -/
def checkName : Option String → List String
  | none => ["Expected string, received null"]
  | some s => if 1 ≤ s.length then [] else ["Name is required"]

/-- `z.string().email('Invalid email address')` on a form value. -/
def checkEmail : Option String → List String
  | none => ["Expected string, received null"]
  | some s => if emailValid s then [] else ["Invalid email address"]

/-- `z.string().min(6, msg)` on a form value; the two signup variants
configure different messages. -/
def checkPassword (v : Option String) (msg : String) : List String :=
  match v with
  | none => ["Expected string, received null"]
  | some s => if 6 ≤ s.length then [] else [msg]

/-- `SignupSchema.safeParse` of `actions.ts`. -/
def signupParse (nameV emailV passwordV : Option String) :
    Except SignupFieldErrors SignupData :=
  let e : SignupFieldErrors :=
    ⟨checkName nameV, checkEmail emailV,
     checkPassword passwordV "Password must be at least 6 characters long"⟩
  match nameV, emailV, passwordV with
  | some n, some em, some p =>
      if e.name.isEmpty && e.email.isEmpty && e.password.isEmpty then
        Except.ok ⟨n, em, p⟩
      else Except.error e
  | _, _, _ => Except.error e

/-! ### Signup schema (`actions/signup.ts`): email, password min 6 -/

/-- Field-error map of the `actions/signup.ts` schema. -/
structure SignupBFieldErrors where
  email : List String
  password : List String
deriving Repr, DecidableEq

/-- Parsed data of the `actions/signup.ts` schema. -/
structure SignupBData where
  email : String
  password : String
deriving Repr, DecidableEq

/-- `SignupSchema.safeParse` of `actions/signup.ts`. -/
def signupBParse (emailV passwordV : Option String) :
    Except SignupBFieldErrors SignupBData :=
  let e : SignupBFieldErrors :=
    ⟨checkEmail emailV,
     checkPassword passwordV "Password must be at least 6 characters"⟩
  match emailV, passwordV with
  | some em, some p =>
      if e.email.isEmpty && e.password.isEmpty then Except.ok ⟨em, p⟩
      else Except.error e
  | _, _ => Except.error e

/-! ### Invoice schema: customerId string, amount coerced > 0, status enum -/

/-- Field-error map of the invoice `FormSchema` (id and data omitted by
`CreateInvoice`/`Updateinvoice`). -/
structure InvoiceFieldErrors where
  customerId : List String
  amount : List String
  status : List String
deriving Repr, DecidableEq

/-- Parsed invoice data. -/
structure InvoiceData where
  customerId : String
  amount : ℚ
  status : String
deriving Repr, DecidableEq

/-- `z.string({invalid_type_error: 'Please select a customer'})`:
any string passes, `null` fails. -/
def checkCustomerId : Option String → List String
  | none => ["Please select a customer"]
  | some _ => []

/-- `z.coerce.number().gt(0, 'Please enter an amount greater than $0')`. -/
def checkAmount (v : Option String) : List String :=
  match jsNumber v with
  | none => ["Expected number, received nan"]
  | some q => if 0 < q then [] else ["Please enter an amount greater than $0"]

/-- `z.enum(['pending', 'paid'], {invalid_type_error: 'Please select an
invoice status'})`. -/
def checkStatus : Option String → List String
  | none => ["Please select an invoice status"]
  | some s =>
      if s == "pending" || s == "paid" then []
      else ["Invalid enum value. Expected pending | paid, received " ++ s]

/-- `CreateInvoice.safeParse` / `Updateinvoice.safeParse` (the same
schema, `FormSchema.omit({id, data})`). -/
def invoiceParse (customerIdV amountV statusV : Option String) :
    Except InvoiceFieldErrors InvoiceData :=
  let e : InvoiceFieldErrors :=
    ⟨checkCustomerId customerIdV, checkAmount amountV, checkStatus statusV⟩
  match customerIdV, jsNumber amountV, statusV with
  | some c, some q, some s =>
      if e.customerId.isEmpty && e.amount.isEmpty && e.status.isEmpty then
        Except.ok ⟨c, q, s⟩
      else Except.error e
  | _, _, _ => Except.error e

/-! ## bcrypt model -/

/-- Modelled from the spec: `bcrypt.hash(password, cost)` from the
external `bcrypt` package (not part of this repository's sources).
The spec describes the stored password as a salted one-way hash,
verifiable against the input password but never equal to the
plaintext; the model keeps the cost factor and differs from the
plaintext by a version/cost prefix. -/
def bcryptHash (password : String) (cost : Nat) : String :=
  "$2b$" ++ toString cost ++ "$" ++ password

/-- Modelled from the spec: `bcrypt.compare`, successful exactly on the
password the hash was produced from at cost factor 10. -/
def bcryptVerify (password hash : String) : Bool :=
  hash == bcryptHash password 10

/-! ## Handlers

Each handler returns its result value, the database after the call and
the trace of effects it performed, in order.  A SQL statement throws
exactly when `failAt` equals its index among the call's statements. -/

/-- `signup` of `src/app/lib/actions.ts`: validate name/email/password,
check name duplicates, check email duplicates, hash at cost 10, insert
and redirect to `/login`; any SQL exception is caught and reported as
a database-error message. -/
def signup (failAt : Option Nat) (fd : FormData) (db : DB) :
    ActionResult SignupFieldErrors × DB × List Effect :=
  match signupParse (fd.get "name") (fd.get "email") (fd.get "password") with
  | Except.error e => (ActionResult.errors e "Invalid fields.", db, [])
  | Except.ok d =>
      if failAt == some 0 then
        (ActionResult.message "Database Error: Failed to create user.", db, [])
      else
        let t0 := [Effect.sqlSelectUserByName d.name]
        if 0 < (db.users.filter (fun u => u.name == some d.name)).length then
          (ActionResult.message "User already exists with this name.", db, t0)
        else if failAt == some 1 then
          (ActionResult.message "Database Error: Failed to create user.", db, t0)
        else
          let t1 := t0 ++ [Effect.sqlSelectUserByEmail d.email]
          if 0 < (db.users.filter (fun u => u.email == d.email)).length then
            (ActionResult.message "User already exists with this email.", db, t1)
          else if failAt == some 2 then
            (ActionResult.message "Database Error: Failed to create user.", db, t1)
          else
            let hashedPassword := bcryptHash d.password 10
            let row : UserRow := ⟨some d.name, d.email, hashedPassword⟩
            (ActionResult.redirect "/login",
             { db with users := db.users ++ [row] },
             t1 ++ [Effect.sqlInsertUser row])

/-- `signup` of `src/app/lib/actions/signup.ts`: validate
email/password, check email duplicates, hash at cost 10, insert a row
without a name and return a success message; any SQL exception is
caught and reported as a database-error message. -/
def signupB (failAt : Option Nat) (fd : FormData) (db : DB) :
    ActionResult SignupBFieldErrors × DB × List Effect :=
  match signupBParse (fd.get "email") (fd.get "password") with
  | Except.error e => (ActionResult.errors e "Invalid fields.", db, [])
  | Except.ok d =>
      if failAt == some 0 then
        (ActionResult.message "Database Error: Failed to create user.", db, [])
      else
        let t0 := [Effect.sqlSelectUserByEmail d.email]
        if 0 < (db.users.filter (fun u => u.email == d.email)).length then
          (ActionResult.message "User already exists with this email.", db, t0)
        else if failAt == some 1 then
          (ActionResult.message "Database Error: Failed to create user.", db, t0)
        else
          let hashedPassword := bcryptHash d.password 10
          let row : UserRow := ⟨none, d.email, hashedPassword⟩
          (ActionResult.message "User created successfully!",
           { db with users := db.users ++ [row] },
           t0 ++ [Effect.sqlInsertUser row])

/-- `createInvoice` of `actions.ts`: validate, convert the amount to
cents by multiplying by 100, insert, revalidate the invoices page and
redirect there.  `today` stands for
`new Date().toISOString().split('T')[0]`. -/
def createInvoice (failAt : Option Nat) (today : String) (fd : FormData) (db : DB) :
    ActionResult InvoiceFieldErrors × DB × List Effect :=
  match invoiceParse (fd.get "customerId") (fd.get "amount") (fd.get "status") with
  | Except.error e =>
      (ActionResult.errors e "Missing Fields. Failed to Create invoice.", db, [])
  | Except.ok d =>
      let amountInCents := d.amount * 100
      if failAt == some 0 then
        (ActionResult.message "Database Error: Failed to Create Invoice.", db, [])
      else
        let row : InvoiceRow := ⟨d.customerId, amountInCents, d.status, today⟩
        (ActionResult.redirect "/dashboard/invoices",
         { db with invoices := db.invoices ++ [row] },
         [Effect.sqlInsertInvoice row, Effect.revalidate "/dashboard/invoices"])

/-- `updateInvoice` of `actions.ts`.  The source reads the customer id
from form key `custmerId` (misspelled) and issues its UPDATE against
table `invoice` (misnamed), recorded verbatim in the effect trace; the
`invoices` list of the model is untouched since the statement does not
target it. -/
def updateInvoice (failAt : Option Nat) (id : String) (fd : FormData) (db : DB) :
    ActionResult InvoiceFieldErrors × DB × List Effect :=
  match invoiceParse (fd.get "custmerId") (fd.get "amount") (fd.get "status") with
  | Except.error e =>
      (ActionResult.errors e "Missing Fields. Failed to Update Invoice.", db, [])
  | Except.ok d =>
      let amountInCents := d.amount * 100
      if failAt == some 0 then
        (ActionResult.message "Database Error: Failed to Update Invoice", db, [])
      else
        (ActionResult.redirect "/dashboard/invoices", db,
         [Effect.sqlUpdateInvoice "invoice" id d.customerId amountInCents d.status,
          Effect.revalidate "/dashboard/invoices"])

/-- `deleteInvoice` of `actions.ts`: its first statement is
`throw new Error('Failed to Delete Invoice')`, so the call raises
before any SQL or revalidation; the DELETE and `revalidatePath`
statements that follow in the source sit in a block the source itself
comments `Unreachable code block`. -/
def deleteInvoice (id : String) (db : DB) : Except String (DB × List Effect) :=
  Except.error "Failed to Delete Invoice"

/-- What the external `signIn('credentials', formData)` call does on a
given request: succeed, throw an `AuthError` carrying a `type`, or
throw some other error. -/
inductive SignInResult where
  | ok
  | authError (type : String)
  | otherError (e : String)
deriving Repr, DecidableEq

/-- `authenticate` of `actions.ts`: delegate to `signIn`; map an
`AuthError` of type `CredentialsSignin` to `'Invalid credentials'`,
any other `AuthError` to `'Something went wrong'`, and re-raise every
non-`AuthError` exception unchanged.  `Except.ok none` models the
function returning `undefined`. -/
def authenticate (r : SignInResult) : Except String (Option String) :=
  match r with
  | SignInResult.ok => Except.ok none
  | SignInResult.authError t =>
      if t == "CredentialsSignin" then Except.ok (some "Invalid credentials")
      else Except.ok (some "Something went wrong")
  | SignInResult.otherError e => Except.error e

/-! ## Helper lemmas -/

theorem bcryptHash_ten_ne (p : String) : bcryptHash p 10 ≠ p := by
  intro h
  have hl := congrArg String.length h
  simp only [bcryptHash] at hl
  rw [String.length_append, String.length_append, String.length_append] at hl
  have h1 : ("$2b$" : String).length = 4 := rfl
  have h2 : (toString 10 : String).length = 2 := rfl
  have h3 : ("$" : String).length = 1 := rfl
  omega

theorem bcryptVerify_hash (p : String) : bcryptVerify p (bcryptHash p 10) = true := by
  simp [bcryptVerify]

theorem invoiceParse_ok_status (c a s : Option String) (d : InvoiceData)
    (h : invoiceParse c a s = Except.ok d) :
    d.status = "pending" ∨ d.status = "paid" := by
  simp only [invoiceParse] at h
  split at h
  · rename_i cstr qv sstr heq
    split_ifs at h with hcond
    · simp only [Bool.and_eq_true, List.isEmpty_eq_true] at hcond
      obtain ⟨⟨h1, h2⟩, h3⟩ := hcond
      injection h with h'
      subst h'
      simp only [checkStatus] at h3
      by_cases hp : sstr = "pending"
      · left; simp [hp]
      · by_cases hq2 : sstr = "paid"
        · right; simp [hq2]
        · rw [if_neg (by simp [hp, hq2])] at h3
          simp at h3
  · exact Except.noConfusion h

theorem invoiceParse_error_of_check (c a s : Option String)
    (hne : ¬(checkCustomerId c = [] ∧ checkAmount a = [] ∧ checkStatus s = [])) :
    invoiceParse c a s
      = Except.error ⟨checkCustomerId c, checkAmount a, checkStatus s⟩ := by
  simp only [invoiceParse]
  split
  · rw [if_neg (by
      simp only [Bool.and_eq_true, List.isEmpty_eq_true]
      intro hc
      exact hne ⟨hc.1.1, hc.1.2, hc.2⟩)]
  · rfl

theorem signupParse_error_of_check (n em p : Option String)
    (hne : ¬(checkName n = [] ∧ checkEmail em = [] ∧
             checkPassword p "Password must be at least 6 characters long" = [])) :
    signupParse n em p = Except.error
      ⟨checkName n, checkEmail em,
       checkPassword p "Password must be at least 6 characters long"⟩ := by
  simp only [signupParse]
  split
  · rw [if_neg (by
      simp only [Bool.and_eq_true, List.isEmpty_eq_true]
      intro hc
      exact hne ⟨hc.1.1, hc.1.2, hc.2⟩)]
  · rfl

theorem signupBParse_error_of_check (em p : Option String)
    (hne : ¬(checkEmail em = [] ∧
             checkPassword p "Password must be at least 6 characters" = [])) :
    signupBParse em p = Except.error
      ⟨checkEmail em, checkPassword p "Password must be at least 6 characters"⟩ := by
  simp only [signupBParse]
  split
  · rw [if_neg (by
      simp only [Bool.and_eq_true, List.isEmpty_eq_true]
      intro hc
      exact hne ⟨hc.1, hc.2⟩)]
  · rfl

/-! ## Claims -/

/-- C1: for every signup submission that passes schema validation and
whose email (and, in the `actions.ts` variant, name) matches no
existing users row, the handler inserts exactly one new users row
whose password column holds the bcrypt hash at cost factor 10 —
verifiable against the input password but not equal to it — and the
only SQL statements executed are the two duplicate checks and one
INSERT (one check and one INSERT in the nameless variant). -/
theorem C1_signup_fresh_inserts_hashed_row :
    (∀ (fd : FormData) (db : DB) (d : SignupData),
      signupParse (fd.get "name") (fd.get "email") (fd.get "password") = Except.ok d →
      (db.users.filter (fun u => u.name == some d.name)).length = 0 →
      (db.users.filter (fun u => u.email == d.email)).length = 0 →
      (signup none fd db).2.1.users
          = db.users ++ [⟨some d.name, d.email, bcryptHash d.password 10⟩]
        ∧ (signup none fd db).2.2
          = [Effect.sqlSelectUserByName d.name, Effect.sqlSelectUserByEmail d.email,
             Effect.sqlInsertUser ⟨some d.name, d.email, bcryptHash d.password 10⟩]
        ∧ bcryptVerify d.password (bcryptHash d.password 10) = true
        ∧ bcryptHash d.password 10 ≠ d.password)
  ∧ (∀ (fd : FormData) (db : DB) (d : SignupBData),
      signupBParse (fd.get "email") (fd.get "password") = Except.ok d →
      (db.users.filter (fun u => u.email == d.email)).length = 0 →
      (signupB none fd db).2.1.users
          = db.users ++ [⟨none, d.email, bcryptHash d.password 10⟩]
        ∧ (signupB none fd db).2.2
          = [Effect.sqlSelectUserByEmail d.email,
             Effect.sqlInsertUser ⟨none, d.email, bcryptHash d.password 10⟩]
        ∧ bcryptVerify d.password (bcryptHash d.password 10) = true
        ∧ bcryptHash d.password 10 ≠ d.password) := by
  constructor
  · intro fd db d hp hn he
    refine ⟨?_, ?_, bcryptVerify_hash d.password, bcryptHash_ten_ne d.password⟩ <;>
      simp [signup, hp, hn, he]
  · intro fd db d hp he
    refine ⟨?_, ?_, bcryptVerify_hash d.password, bcryptHash_ten_ne d.password⟩ <;>
      simp [signupB, hp, he]

/-- Witness for C1 at a concrete fresh signup on the empty database. -/
theorem C1_signup_fresh_inserts_hashed_row_witness :
    ((signup none ⟨[("name", "alice"), ("email", "a@b.com"), ("password", "secret")]⟩
        ⟨[], []⟩).2.1.users
        = [] ++ [⟨some "alice", "a@b.com", bcryptHash "secret" 10⟩]
      ∧ (signup none ⟨[("name", "alice"), ("email", "a@b.com"), ("password", "secret")]⟩
          ⟨[], []⟩).2.2
        = [Effect.sqlSelectUserByName "alice", Effect.sqlSelectUserByEmail "a@b.com",
           Effect.sqlInsertUser ⟨some "alice", "a@b.com", bcryptHash "secret" 10⟩]
      ∧ bcryptVerify "secret" (bcryptHash "secret" 10) = true
      ∧ bcryptHash "secret" 10 ≠ "secret")
  ∧ ((signupB none ⟨[("email", "b@c.org"), ("password", "hunter2")]⟩ ⟨[], []⟩).2.1.users
        = [] ++ [⟨none, "b@c.org", bcryptHash "hunter2" 10⟩]
      ∧ (signupB none ⟨[("email", "b@c.org"), ("password", "hunter2")]⟩ ⟨[], []⟩).2.2
        = [Effect.sqlSelectUserByEmail "b@c.org",
           Effect.sqlInsertUser ⟨none, "b@c.org", bcryptHash "hunter2" 10⟩]
      ∧ bcryptVerify "hunter2" (bcryptHash "hunter2" 10) = true
      ∧ bcryptHash "hunter2" 10 ≠ "hunter2") :=
  ⟨C1_signup_fresh_inserts_hashed_row.1
      ⟨[("name", "alice"), ("email", "a@b.com"), ("password", "secret")]⟩ ⟨[], []⟩
      ⟨"alice", "a@b.com", "secret"⟩ rfl rfl rfl,
   C1_signup_fresh_inserts_hashed_row.2
      ⟨[("email", "b@c.org"), ("password", "hunter2")]⟩ ⟨[], []⟩
      ⟨"b@c.org", "hunter2"⟩ rfl rfl⟩

/-- C2: for every signup submission that passes schema validation but
whose name (in the variant requiring it) or email already matches an
existing users row, the handler returns an "already exists" message,
executes only the duplicate-check SELECTs — no INSERT — and leaves the
users table unchanged. -/
theorem C2_signup_duplicate_no_insert :
    (∀ (fd : FormData) (db : DB) (d : SignupData),
      signupParse (fd.get "name") (fd.get "email") (fd.get "password") = Except.ok d →
      0 < (db.users.filter (fun u => u.name == some d.name)).length →
      signup none fd db
        = (ActionResult.message "User already exists with this name.", db,
           [Effect.sqlSelectUserByName d.name]))
  ∧ (∀ (fd : FormData) (db : DB) (d : SignupData),
      signupParse (fd.get "name") (fd.get "email") (fd.get "password") = Except.ok d →
      (db.users.filter (fun u => u.name == some d.name)).length = 0 →
      0 < (db.users.filter (fun u => u.email == d.email)).length →
      signup none fd db
        = (ActionResult.message "User already exists with this email.", db,
           [Effect.sqlSelectUserByName d.name, Effect.sqlSelectUserByEmail d.email]))
  ∧ (∀ (fd : FormData) (db : DB) (d : SignupBData),
      signupBParse (fd.get "email") (fd.get "password") = Except.ok d →
      0 < (db.users.filter (fun u => u.email == d.email)).length →
      signupB none fd db
        = (ActionResult.message "User already exists with this email.", db,
           [Effect.sqlSelectUserByEmail d.email])) := by
  refine ⟨?_, ?_, ?_⟩
  · intro fd db d hp hdup
    simp [signup, hp, hdup]
  · intro fd db d hp hn hdup
    simp [signup, hp, hn, hdup]
  · intro fd db d hp hdup
    simp [signupB, hp, hdup]

/-- Witness for C2: duplicate name, duplicate email, and duplicate
email in the nameless variant, on concrete one-row databases. -/
theorem C2_signup_duplicate_no_insert_witness :
    (signup none ⟨[("name", "alice"), ("email", "a@b.com"), ("password", "secret")]⟩
        ⟨[⟨some "alice", "x@y.net", "h1"⟩], []⟩
      = (ActionResult.message "User already exists with this name.",
         ⟨[⟨some "alice", "x@y.net", "h1"⟩], []⟩,
         [Effect.sqlSelectUserByName "alice"]))
  ∧ (signup none ⟨[("name", "bob"), ("email", "a@b.com"), ("password", "secret")]⟩
        ⟨[⟨some "carol", "a@b.com", "h2"⟩], []⟩
      = (ActionResult.message "User already exists with this email.",
         ⟨[⟨some "carol", "a@b.com", "h2"⟩], []⟩,
         [Effect.sqlSelectUserByName "bob", Effect.sqlSelectUserByEmail "a@b.com"]))
  ∧ (signupB none ⟨[("email", "a@b.com"), ("password", "secret")]⟩
        ⟨[⟨none, "a@b.com", "h3"⟩], []⟩
      = (ActionResult.message "User already exists with this email.",
         ⟨[⟨none, "a@b.com", "h3"⟩], []⟩,
         [Effect.sqlSelectUserByEmail "a@b.com"])) :=
  ⟨C2_signup_duplicate_no_insert.1
      ⟨[("name", "alice"), ("email", "a@b.com"), ("password", "secret")]⟩
      ⟨[⟨some "alice", "x@y.net", "h1"⟩], []⟩ ⟨"alice", "a@b.com", "secret"⟩
      rfl (by decide),
   C2_signup_duplicate_no_insert.2.1
      ⟨[("name", "bob"), ("email", "a@b.com"), ("password", "secret")]⟩
      ⟨[⟨some "carol", "a@b.com", "h2"⟩], []⟩ ⟨"bob", "a@b.com", "secret"⟩
      rfl rfl (by decide),
   C2_signup_duplicate_no_insert.2.2
      ⟨[("email", "a@b.com"), ("password", "secret")]⟩
      ⟨[⟨none, "a@b.com", "h3"⟩], []⟩ ⟨"a@b.com", "secret"⟩
      rfl (by decide)⟩

/-- C5: on a valid, non-duplicate signup the `actions.ts` variant
terminates by redirecting to the login page, while the
`actions/signup.ts` variant returns the success message
"User created successfully!". -/
theorem C5_signup_success_redirect_vs_message :
    (∀ (fd : FormData) (db : DB) (d : SignupData),
      signupParse (fd.get "name") (fd.get "email") (fd.get "password") = Except.ok d →
      (db.users.filter (fun u => u.name == some d.name)).length = 0 →
      (db.users.filter (fun u => u.email == d.email)).length = 0 →
      (signup none fd db).1 = ActionResult.redirect "/login")
  ∧ (∀ (fd : FormData) (db : DB) (d : SignupBData),
      signupBParse (fd.get "email") (fd.get "password") = Except.ok d →
      (db.users.filter (fun u => u.email == d.email)).length = 0 →
      (signupB none fd db).1 = ActionResult.message "User created successfully!") := by
  constructor
  · intro fd db d hp hn he
    simp [signup, hp, hn, he]
  · intro fd db d hp he
    simp [signupB, hp, he]

/-- Witness for C5 at concrete fresh signups on the empty database. -/
theorem C5_signup_success_redirect_vs_message_witness :
    (signup none ⟨[("name", "alice"), ("email", "a@b.com"), ("password", "secret")]⟩
        ⟨[], []⟩).1 = ActionResult.redirect "/login"
  ∧ (signupB none ⟨[("email", "a@b.com"), ("password", "secret")]⟩ ⟨[], []⟩).1
      = ActionResult.message "User created successfully!" :=
  ⟨C5_signup_success_redirect_vs_message.1
      ⟨[("name", "alice"), ("email", "a@b.com"), ("password", "secret")]⟩ ⟨[], []⟩
      ⟨"alice", "a@b.com", "secret"⟩ rfl rfl rfl,
   C5_signup_success_redirect_vs_message.2
      ⟨[("email", "a@b.com"), ("password", "secret")]⟩ ⟨[], []⟩
      ⟨"a@b.com", "secret"⟩ rfl rfl⟩

/-- C3: a signup submission with an invalid email or a password
shorter than 6 characters, and an invoice-create submission with
amount ≤ 0, missing customerId or a status outside the enum, each
return a field-level error map together with the generic message and
perform no database statement at all (empty effect trace, database
unchanged), for every failure point `failAt`. -/
theorem C3_validation_failure_no_db :
    (∀ (failAt : Option Nat) (fd : FormData) (db : DB),
      ((∃ s, fd.get "email" = some s ∧ emailValid s = false)
        ∨ (∃ p, fd.get "password" = some p ∧ p.length < 6)) →
      ∃ e : SignupFieldErrors,
        signup failAt fd db = (ActionResult.errors e "Invalid fields.", db, []))
  ∧ (∀ (failAt : Option Nat) (today : String) (fd : FormData) (db : DB),
      ((∃ q, jsNumber (fd.get "amount") = some q ∧ q ≤ 0)
        ∨ fd.get "customerId" = none
        ∨ (∃ s, fd.get "status" = some s ∧ s ≠ "pending" ∧ s ≠ "paid")
        ∨ fd.get "status" = none) →
      ∃ e : InvoiceFieldErrors,
        createInvoice failAt today fd db
          = (ActionResult.errors e "Missing Fields. Failed to Create invoice.", db, [])) := by
  constructor
  · intro failAt fd db hbad
    have hperr := signupParse_error_of_check (fd.get "name") (fd.get "email") (fd.get "password")
      (by
        rintro ⟨-, hem, hpw⟩
        rcases hbad with ⟨s, hs, hv⟩ | ⟨p, hp, hlen⟩
        · rw [hs] at hem; simp [checkEmail, hv] at hem
        · rw [hp] at hpw
          simp only [checkPassword] at hpw
          rw [if_neg (by omega)] at hpw
          simp at hpw)
    exact ⟨⟨checkName (fd.get "name"), checkEmail (fd.get "email"),
            checkPassword (fd.get "password") "Password must be at least 6 characters long"⟩,
           by simp [signup, hperr]⟩
  · intro failAt today fd db hbad
    have hperr := invoiceParse_error_of_check (fd.get "customerId") (fd.get "amount")
      (fd.get "status")
      (by
        rintro ⟨hc, ha, hs⟩
        rcases hbad with ⟨q, hq, hle⟩ | hcn | ⟨s, hss, hs1, hs2⟩ | hsn
        · simp only [checkAmount, hq] at ha
          rw [if_neg (not_lt.mpr hle)] at ha
          simp at ha
        · rw [hcn] at hc; simp [checkCustomerId] at hc
        · rw [hss] at hs
          simp only [checkStatus] at hs
          rw [if_neg (by simp [hs1, hs2])] at hs
          simp at hs
        · rw [hsn] at hs; simp [checkStatus] at hs)
    exact ⟨⟨checkCustomerId (fd.get "customerId"), checkAmount (fd.get "amount"),
            checkStatus (fd.get "status")⟩,
           by simp [createInvoice, hperr]⟩

/-- Witness for C3: an invalid email, and an invoice submission with a
zero amount, each rejected with no effects. -/
theorem C3_validation_failure_no_db_witness :
    (∃ e : SignupFieldErrors,
      signup (some 0) ⟨[("name", "alice"), ("email", "not-an-email"), ("password", "secret")]⟩
          ⟨[], []⟩
        = (ActionResult.errors e "Invalid fields.", ⟨[], []⟩, []))
  ∧ (∃ e : InvoiceFieldErrors,
      createInvoice (some 0) "2026-01-01"
          ⟨[("customerId", "c1"), ("amount", "0"), ("status", "pending")]⟩ ⟨[], []⟩
        = (ActionResult.errors e "Missing Fields. Failed to Create invoice.", ⟨[], []⟩, [])) :=
  ⟨C3_validation_failure_no_db.1 (some 0)
      ⟨[("name", "alice"), ("email", "not-an-email"), ("password", "secret")]⟩ ⟨[], []⟩
      (Or.inl ⟨"not-an-email", rfl, by decide⟩),
   C3_validation_failure_no_db.2 (some 0) "2026-01-01"
      ⟨[("customerId", "c1"), ("amount", "0"), ("status", "pending")]⟩ ⟨[], []⟩
      (Or.inl ⟨0, by decide, le_refl 0⟩)⟩

/-- C6: for every id and database state, deleteInvoice raises the
error "Failed to Delete Invoice" before any SQL statement or cache
revalidation can run; the DELETE and revalidation code is
unreachable. -/
theorem C6_deleteInvoice_always_throws (id : String) (db : DB) :
    deleteInvoice id db = Except.error "Failed to Delete Invoice" := rfl

/-- C7: updateInvoice reads the customer id under the misspelled key
`custmerId`; whenever that key is absent (as it is for a form that
supplies only the standard `customerId` key), validation fails with
the customerId field error "Please select a customer" and no UPDATE
statement executes: the effect trace is empty and the database is
unchanged. -/
theorem C7_updateInvoice_misspelled_key
    (failAt : Option Nat) (id : String) (fd : FormData) (db : DB)
    (h : fd.get "custmerId" = none) :
    updateInvoice failAt id fd db
      = (ActionResult.errors
           ⟨["Please select a customer"], checkAmount (fd.get "amount"),
            checkStatus (fd.get "status")⟩
           "Missing Fields. Failed to Update Invoice.", db, []) := by
  have hperr := invoiceParse_error_of_check (fd.get "custmerId") (fd.get "amount")
    (fd.get "status")
    (by rintro ⟨hc, -, -⟩; rw [h] at hc; simp [checkCustomerId] at hc)
  rw [h] at hperr
  simp only [updateInvoice, h, hperr, checkCustomerId]

/-- Witness for C7: the form supplies the customer id only under
`customerId`, with otherwise valid fields. -/
theorem C7_updateInvoice_misspelled_key_witness :
    updateInvoice none "inv1"
        ⟨[("customerId", "c1"), ("amount", "5"), ("status", "paid")]⟩ ⟨[], []⟩
      = (ActionResult.errors ⟨["Please select a customer"], [], []⟩
           "Missing Fields. Failed to Update Invoice.", ⟨[], []⟩, []) :=
  C7_updateInvoice_misspelled_key none "inv1"
    ⟨[("customerId", "c1"), ("amount", "5"), ("status", "paid")]⟩ ⟨[], []⟩ rfl

/-- C8: authenticate maps an AuthError of type CredentialsSignin to
"Invalid credentials", any other AuthError to "Something went wrong",
and re-raises any non-AuthError unchanged. -/
theorem C8_authenticate_error_mapping :
    authenticate (SignInResult.authError "CredentialsSignin")
        = Except.ok (some "Invalid credentials")
  ∧ (∀ t : String, t ≠ "CredentialsSignin" →
      authenticate (SignInResult.authError t) = Except.ok (some "Something went wrong"))
  ∧ (∀ e : String, authenticate (SignInResult.otherError e) = Except.error e) := by
  refine ⟨rfl, ?_, fun e => rfl⟩
  intro t ht
  simp [authenticate, ht]

/-- Witness for C8: a non-CredentialsSignin AuthError type and a
non-AuthError exception. -/
theorem C8_authenticate_error_mapping_witness :
    authenticate (SignInResult.authError "AccessDenied")
        = Except.ok (some "Something went wrong")
  ∧ authenticate (SignInResult.otherError "ECONNREFUSED") = Except.error "ECONNREFUSED" :=
  ⟨C8_authenticate_error_mapping.2.1 "AccessDenied" (by decide),
   C8_authenticate_error_mapping.2.2 "ECONNREFUSED"⟩

/-- C4 counterexample: the claim "the stored amount is an integer
number of cents" fails on the code: the valid submission with amount
"1.234" (greater than 0, so accepted) stores 1.234 × 100 = 123.4 =
617/5 cents, which equals no integer. -/
theorem C4_integer_cents_counterexample :
    (createInvoice none "2026-01-01"
        ⟨[("customerId", "c1"), ("amount", "1.234"), ("status", "pending")]⟩
        ⟨[], []⟩).2.1.invoices
      = [⟨"c1", (617 : ℚ)/5, "pending", "2026-01-01"⟩]
    ∧ ¬ ∃ n : ℤ, ((617 : ℚ)/5) = (n : ℚ) := by
  constructor
  · have hp : invoiceParse
        ((⟨[("customerId", "c1"), ("amount", "1.234"), ("status", "pending")]⟩ : FormData).get
          "customerId")
        ((⟨[("customerId", "c1"), ("amount", "1.234"), ("status", "pending")]⟩ : FormData).get
          "amount")
        ((⟨[("customerId", "c1"), ("amount", "1.234"), ("status", "pending")]⟩ : FormData).get
          "status")
        = Except.ok ⟨"c1", mkRat 1234 1000, "pending"⟩ := rfl
    simp [createInvoice, hp]
    norm_num [Rat.mkRat_eq_div]
  · rintro ⟨n, hn⟩
    have h5 : (617 : ℚ) = (n : ℚ) * 5 := by field_simp at hn; linarith
    have hz : (617 : ℤ) = n * 5 := by exact_mod_cast h5
    omega

/-- C4 (amended): for every valid invoice-create submission the
accepted amount is converted by multiplying by 100 before insertion —
the stored amount equals the validated amount times 100 (an integer
number of cents whenever the input has at most two decimal places, as
for input "12.50" ↦ 1250, but not in general). -/
theorem C4_amount_times_100 (today : String) (fd : FormData) (db : DB) (d : InvoiceData)
    (hp : invoiceParse (fd.get "customerId") (fd.get "amount") (fd.get "status")
      = Except.ok d) :
    (createInvoice none today fd db).2.1.invoices
      = db.invoices ++ [⟨d.customerId, d.amount * 100, d.status, today⟩] := by
  simp [createInvoice, hp]

/-- Witness for C4: input amount "12.50" stores exactly 1250. -/
theorem C4_amount_times_100_witness :
    (createInvoice none "2026-01-01"
        ⟨[("customerId", "c1"), ("amount", "12.50"), ("status", "pending")]⟩
        ⟨[], []⟩).2.1.invoices
      = [⟨"c1", (1250 : ℚ), "pending", "2026-01-01"⟩] := by
  have h := C4_amount_times_100 "2026-01-01"
    ⟨[("customerId", "c1"), ("amount", "12.50"), ("status", "pending")]⟩ ⟨[], []⟩
    ⟨"c1", mkRat 1250 100, "pending"⟩ rfl
  rw [h]
  norm_num [Rat.mkRat_eq_div]

/-- C9: every invoice row created by createInvoice that was not
already in the database has status "pending" or "paid", and a
submission whose status lies outside this set is rejected by
validation with no database statement executed. -/
theorem C9_invoice_status_enum :
    (∀ (failAt : Option Nat) (today : String) (fd : FormData) (db : DB) (row : InvoiceRow),
      row ∈ (createInvoice failAt today fd db).2.1.invoices →
      row ∈ db.invoices ∨ row.status = "pending" ∨ row.status = "paid")
  ∧ (∀ (failAt : Option Nat) (today : String) (fd : FormData) (db : DB) (s : String),
      fd.get "status" = some s → s ≠ "pending" → s ≠ "paid" →
      ∃ e : InvoiceFieldErrors,
        createInvoice failAt today fd db
          = (ActionResult.errors e "Missing Fields. Failed to Create invoice.", db, [])) := by
  constructor
  · intro failAt today fd db row hmem
    rcases hp : invoiceParse (fd.get "customerId") (fd.get "amount") (fd.get "status")
      with e | d
    · simp [createInvoice, hp] at hmem
      exact Or.inl hmem
    · by_cases hf : failAt = some 0
      · simp [createInvoice, hp, hf] at hmem
        exact Or.inl hmem
      · simp [createInvoice, hp, hf] at hmem
        rcases hmem with hmem | hmem
        · exact Or.inl hmem
        · right
          have hst := invoiceParse_ok_status _ _ _ _ hp
          rw [hmem]
          simpa using hst
  · intro failAt today fd db s hss hs1 hs2
    have hperr := invoiceParse_error_of_check (fd.get "customerId") (fd.get "amount")
      (fd.get "status")
      (by
        rintro ⟨-, -, hs⟩
        rw [hss] at hs
        simp only [checkStatus] at hs
        rw [if_neg (by simp [hs1, hs2])] at hs
        simp at hs)
    exact ⟨⟨checkCustomerId (fd.get "customerId"), checkAmount (fd.get "amount"),
            checkStatus (fd.get "status")⟩,
           by simp [createInvoice, hperr]⟩

/-- Witness for C9: the row created from a "pending" submission has an
allowed status, and status "draft" is rejected with no effects. -/
theorem C9_invoice_status_enum_witness :
    ((⟨"c1", mkRat 1250 100 * 100, "pending", "2026-01-01"⟩ : InvoiceRow) ∈
        (⟨[], []⟩ : DB).invoices
      ∨ (⟨"c1", mkRat 1250 100 * 100, "pending", "2026-01-01"⟩ : InvoiceRow).status
          = "pending"
      ∨ (⟨"c1", mkRat 1250 100 * 100, "pending", "2026-01-01"⟩ : InvoiceRow).status = "paid")
  ∧ (∃ e : InvoiceFieldErrors,
      createInvoice none "2026-01-01"
          ⟨[("customerId", "c1"), ("amount", "12.50"), ("status", "draft")]⟩ ⟨[], []⟩
        = (ActionResult.errors e "Missing Fields. Failed to Create invoice.",
           ⟨[], []⟩, [])) :=
  ⟨C9_invoice_status_enum.1 none "2026-01-01"
      ⟨[("customerId", "c1"), ("amount", "12.50"), ("status", "pending")]⟩ ⟨[], []⟩
      ⟨"c1", mkRat 1250 100 * 100, "pending", "2026-01-01"⟩
      (by
        have hp : invoiceParse
            ((⟨[("customerId", "c1"), ("amount", "12.50"), ("status", "pending")]⟩ :
                FormData).get "customerId")
            ((⟨[("customerId", "c1"), ("amount", "12.50"), ("status", "pending")]⟩ :
                FormData).get "amount")
            ((⟨[("customerId", "c1"), ("amount", "12.50"), ("status", "pending")]⟩ :
                FormData).get "status")
            = Except.ok ⟨"c1", mkRat 1250 100, "pending"⟩ := rfl
        simp [createInvoice, hp]),
   C9_invoice_status_enum.2 none "2026-01-01"
      ⟨[("customerId", "c1"), ("amount", "12.50"), ("status", "draft")]⟩ ⟨[], []⟩
      "draft" rfl (by decide) (by decide)⟩

/-- C10: for signup (both variants), createInvoice and updateInvoice,
the returned object carries an errors field exactly when schema
validation failed; every other returned object (duplicate-user and
database-error outcomes) is message-only by the shape of the result
type. -/
theorem C10_errors_iff_validation_failed :
    (∀ (failAt : Option Nat) (fd : FormData) (db : DB),
      (∃ e m db2 tr, signup failAt fd db = (ActionResult.errors e m, db2, tr))
        ↔ ∃ e, signupParse (fd.get "name") (fd.get "email") (fd.get "password")
            = Except.error e)
  ∧ (∀ (failAt : Option Nat) (fd : FormData) (db : DB),
      (∃ e m db2 tr, signupB failAt fd db = (ActionResult.errors e m, db2, tr))
        ↔ ∃ e, signupBParse (fd.get "email") (fd.get "password") = Except.error e)
  ∧ (∀ (failAt : Option Nat) (today : String) (fd : FormData) (db : DB),
      (∃ e m db2 tr, createInvoice failAt today fd db = (ActionResult.errors e m, db2, tr))
        ↔ ∃ e, invoiceParse (fd.get "customerId") (fd.get "amount") (fd.get "status")
            = Except.error e)
  ∧ (∀ (failAt : Option Nat) (id : String) (fd : FormData) (db : DB),
      (∃ e m db2 tr, updateInvoice failAt id fd db = (ActionResult.errors e m, db2, tr))
        ↔ ∃ e, invoiceParse (fd.get "custmerId") (fd.get "amount") (fd.get "status")
            = Except.error e) := by
  refine ⟨?_, ?_, ?_, ?_⟩
  · intro failAt fd db
    constructor
    · rintro ⟨e, m, db2, tr, hres⟩
      rcases hp : signupParse (fd.get "name") (fd.get "email") (fd.get "password")
        with e' | d
      · exact ⟨e', rfl⟩
      · exfalso
        simp only [signup, hp] at hres
        split_ifs at hres <;> simp at hres
    · rintro ⟨e, hp⟩
      exact ⟨e, "Invalid fields.", db, [], by simp [signup, hp]⟩
  · intro failAt fd db
    constructor
    · rintro ⟨e, m, db2, tr, hres⟩
      rcases hp : signupBParse (fd.get "email") (fd.get "password") with e' | d
      · exact ⟨e', rfl⟩
      · exfalso
        simp only [signupB, hp] at hres
        split_ifs at hres <;> simp at hres
    · rintro ⟨e, hp⟩
      exact ⟨e, "Invalid fields.", db, [], by simp [signupB, hp]⟩
  · intro failAt today fd db
    constructor
    · rintro ⟨e, m, db2, tr, hres⟩
      rcases hp : invoiceParse (fd.get "customerId") (fd.get "amount") (fd.get "status")
        with e' | d
      · exact ⟨e', rfl⟩
      · exfalso
        simp only [createInvoice, hp] at hres
        split_ifs at hres <;> simp at hres
    · rintro ⟨e, hp⟩
      exact ⟨e, "Missing Fields. Failed to Create invoice.", db, [],
             by simp [createInvoice, hp]⟩
  · intro failAt id fd db
    constructor
    · rintro ⟨e, m, db2, tr, hres⟩
      rcases hp : invoiceParse (fd.get "custmerId") (fd.get "amount") (fd.get "status")
        with e' | d
      · exact ⟨e', rfl⟩
      · exfalso
        simp only [updateInvoice, hp] at hres
        split_ifs at hres <;> simp at hres
    · rintro ⟨e, hp⟩
      exact ⟨e, "Missing Fields. Failed to Update Invoice.", db, [],
             by simp [updateInvoice, hp]⟩

/-- Witness for C10: a fully missing signup form yields an errors
object. -/
theorem C10_errors_iff_validation_failed_witness :
    ∃ e m db2 tr,
      signup (some 1) ⟨[]⟩ ⟨[], []⟩ = (ActionResult.errors e m, db2, tr) :=
  (C10_errors_iff_validation_failed.1 (some 1) ⟨[]⟩ ⟨[], []⟩).mpr
    ⟨⟨checkName none, checkEmail none,
      checkPassword none "Password must be at least 6 characters long"⟩, rfl⟩
